import Mathlib

/-!
Verification development for the straggler-shield repository.

Shallow embedding of the GPU validation pipeline (pkg/pulse) and the
Kubernetes reconciliation controller (pkg/k8s) as pure Lean functions.

Modelling conventions:
* Go `time.Duration` (int64 nanoseconds) is modelled as `ℤ`; int64
  overflow in `computeStats` is modelled explicitly with `wrap64`.
* Go `float64` arithmetic is modelled as exact rational arithmetic
  (an idealisation: rounding error is not modelled).
* The coefficient of variation `cv = math.Sqrt(variance)/mean` is carried
  as its square `cv² = variance/mean²`, which keeps the embedding inside
  `ℚ`.  Since `x ↦ x²` is strictly monotone on non-negatives, every
  comparison `cv > c` with `c ≥ 0` is equivalent to `cv² > c²`, and
  `cv = 0 ↔ cv² = 0`.  Where a `PulseFailure` carrier stores a cv value
  ("cv" unit), the model stores the square of the value the Go code stores.
* Hardware responses (native return codes, elapsed wall-clock times,
  peer-to-peer bandwidth, nvidia-smi output) are oracle fields of a
  `Hardware` structure; the CUDA side is out of scope per the spec (§1).
* Environment-variable lookups are modelled as the string returned by
  `os.Getenv` ("" when unset) and `strconv` parsers are oracle parameters
  (`String → Option ℤ` / `String → Option ℚ`).
-/

namespace StragglerShield

/-- Two's-complement wrap of an integer into the int64 range,
modelling Go int64 arithmetic overflow. -/
def wrap64 (x : ℤ) : ℤ := (x + 2 ^ 63) % 2 ^ 64 - 2 ^ 63

/-- `pulseRuns` from pkg/pulse/pulse.go: number of timed GEMM passes per
device per validation cycle. -/
def pulseRuns : ℕ := 5

/-- `computeStats` from pkg/pulse/pulse.go.  Sums the durations in int64
arithmetic, takes the truncated integer mean, accumulates squared deltas
from that mean, and divides by the length.  Returns `(mean ns, cv²)`;
the Go code returns `(mean, cv)` with `cv = math.Sqrt(variance)/mean`
guarded by `meanNs > 0` (else 0). -/
def computeStats (durations : List ℤ) : ℤ × ℚ :=
  let sum := durations.foldl (fun a d => wrap64 (a + d)) 0
  let meanNs := Int.tdiv sum (durations.length : ℤ)
  let variance :=
    (durations.foldl (fun v d => v + ((wrap64 (d - meanNs) : ℤ) : ℚ) ^ 2) 0)
      / (durations.length : ℚ)
  (meanNs, if 0 < meanNs then variance / ((meanNs : ℚ) ^ 2) else 0)

/-- Per-device stats row parsed from nvidia-smi (`gpuStats` in
pkg/pulse/syscheck.go). -/
structure gpuStats where
  SMClockMHz : ℤ
  MaxSMClockMHz : ℤ
  TempC : ℤ
  ECCErrors : ℤ
  deriving DecidableEq, Repr

/-- Resolved threshold set (pkg/pulse/errors.go package-level state).
`stragglerThresholdNs` is the mean-latency ceiling in nanoseconds;
`maxCoefficientOfVar` is the cv ceiling itself (not squared). -/
structure Thresholds where
  stragglerThresholdNs : ℤ
  maxCoefficientOfVar : ℚ
  minP2PBandwidthGBs : ℚ
  maxIdleTempC : ℤ
  deriving DecidableEq, Repr

/-- Hardware / environment oracle for one pipeline execution.  Function
fields record what the native library and nvidia-smi would report. -/
structure Hardware where
  /-- result of `gpu_device_count()` (−1 on error per the native contract) -/
  rawDeviceCount : ℤ
  /-- `run_gpu_pulse` return code for (device, run index) -/
  runRc : ℕ → ℕ → ℤ
  /-- wall-clock elapsed ns measured by the Go layer for (device, run index) -/
  runElapsedNs : ℕ → ℕ → ℤ
  /-- `run_p2p_check` return code for (src, dst) -/
  p2pRc : ℕ → ℕ → ℤ
  /-- `run_p2p_check` reported bandwidth in GB/s for (src, dst) -/
  p2pBwGBs : ℕ → ℕ → ℚ
  /-- `queryAllSMI` result before the pulse (`none` = nvidia-smi absent) -/
  preStats : Option (List gpuStats)
  /-- `queryAllSMI` result after the pulse (`none` = nvidia-smi absent) -/
  postStats : Option (List gpuStats)

/-- Scan of `preflight` (pkg/pulse/syscheck.go): first device with a
nonzero uncorrectable ECC count or an idle temperature above the ceiling
short-circuits. -/
def preflightScan (th : Thresholds) : List gpuStats → Option String
  | [] => none
  | s :: rest =>
    if 0 < s.ECCErrors then some "uncorrectable ECC errors since last boot"
    else if th.maxIdleTempC < s.TempC then some "idle temperature exceeds threshold"
    else preflightScan th rest

/-- `preflight` from pkg/pulse/syscheck.go.  nvidia-smi absence is a pass. -/
def preflight (th : Thresholds) (stats : Option (List gpuStats)) : Option String :=
  match stats with
  | none => none
  | some l => preflightScan th l

/-- Scan of `validateClocks` (pkg/pulse/syscheck.go): devices with an
unreported max clock are skipped; an SM clock below half the max
(`int(float64(max) * 0.5)`, i.e. truncated division by 2) fails. -/
def clocksScan : List gpuStats → Option String
  | [] => none
  | s :: rest =>
    if s.MaxSMClockMHz = 0 then clocksScan rest
    else if s.SMClockMHz < Int.tdiv s.MaxSMClockMHz 2 then
      some "SM clock below half of max under load"
    else clocksScan rest

/-- `validateClocks` from pkg/pulse/syscheck.go.  nvidia-smi absence is a pass. -/
def validateClocks (stats : Option (List gpuStats)) : Option String :=
  match stats with
  | none => none
  | some l => clocksScan l

/-- The three sentinel errors of pkg/pulse/errors.go. -/
inductive Sentinel
  | stragglerDetected
  | highVariance
  | interconnectDegraded
  deriving DecidableEq, Repr

/-- `PulseFailure` from pkg/pulse/errors.go: a sentinel cause plus the
measured value, threshold value and unit.  For unit "cv" the model stores
the squares of the values the Go code stores (see file header). -/
structure PulseFailure where
  cause : Sentinel
  causeMsg : String
  measuredValue : ℚ
  thresholdValue : ℚ
  unit : String
  deriving DecidableEq, Repr

/-- An error escaping the pipeline: either a `PulseFailure` carrier
(wrapping a sentinel) or a plain `fmt.Errorf` error with no carrier. -/
inductive PulseError
  | failure (f : PulseFailure)
  | hard (msg : String)
  deriving DecidableEq, Repr

/-- `IsStragglerErr` from pkg/pulse/errors.go: true exactly when the error
chain contains one of the three sentinels.  In the model every carrier
wraps a sentinel and plain errors wrap none. -/
def IsStragglerErr : PulseError → Bool
  | .failure ⟨.stragglerDetected, _, _, _, _⟩ => true
  | .failure ⟨.highVariance, _, _, _, _⟩ => true
  | .failure ⟨.interconnectDegraded, _, _, _, _⟩ => true
  | .hard _ => false

/-- `deviceCount` from pkg/pulse/pulse.go: the native count clamped to a
minimum of 1 so single-device validation always proceeds. -/
def deviceCount (hw : Hardware) : ℕ :=
  if hw.rawDeviceCount < 1 then 1 else hw.rawDeviceCount.toNat

/-- The run loop inside `runDevicePulse`: the first run whose native
return code is nonzero aborts, yielding that run's elapsed time and the
message selected by the rc switch. -/
def firstRunFailure (hw : Hardware) (dev : ℕ) : List ℕ → Option (ℤ × String)
  | [] => none
  | i :: rest =>
    if hw.runRc dev i = 0 then firstRunFailure hw dev rest
    else some (hw.runElapsedNs dev i,
      if hw.runRc dev i = 1 then "cuda error"
      else if hw.runRc dev i = 2 then "out of device memory"
      else "gpu_pulse returned unknown code")

/-- `runDevicePulse` from pkg/pulse/pulse.go.  Returns
`(mean ns, cv², error)`.  A native failure on any run returns that run's
elapsed time with a plain error; otherwise the mean is checked against
the latency threshold first and the coefficient of variation second
(compared via squares, see file header). -/
def runDevicePulse (th : Thresholds) (hw : Hardware) (dev : ℕ) :
    ℤ × ℚ × Option PulseError :=
  match firstRunFailure hw dev (List.range pulseRuns) with
  | some (elapsed, msg) => (elapsed, 0, some (.hard msg))
  | none =>
    let stats := computeStats ((List.range pulseRuns).map (hw.runElapsedNs dev))
    if th.stragglerThresholdNs < stats.1 then
      (stats.1, stats.2, some (.failure
        ⟨.stragglerDetected, "mean latency over threshold",
          ((Int.tdiv stats.1 1000000 : ℤ) : ℚ),
          ((Int.tdiv th.stragglerThresholdNs 1000000 : ℤ) : ℚ), "ms"⟩))
    else if th.maxCoefficientOfVar ^ 2 < stats.2 then
      (stats.1, stats.2, some (.failure
        ⟨.highVariance, "high run-to-run variance",
          stats.2, th.maxCoefficientOfVar ^ 2, "cv"⟩))
    else (stats.1, stats.2, none)

/-- Result of the device loop in `RunPulse`: the threaded worst mean,
the first error, and the devices the loop entered. -/
structure LoopResult where
  worst : ℤ
  err : Option PulseError
  devs : List ℕ
  deriving Repr

/-- The device loop of `RunPulse`: per device, metric recording (not
modelled) then error short-circuit returning that device's mean, else the
worst-mean update `if mean > worstMean`. -/
def deviceLoop (th : Thresholds) (hw : Hardware) : List ℕ → ℤ → LoopResult
  | [], worst => ⟨worst, none, []⟩
  | d :: rest, worst =>
    let r := runDevicePulse th hw d
    match r.2.2 with
    | some e => ⟨r.1, some e, [d]⟩
    | none =>
      let worst' := if worst < r.1 then r.1 else worst
      let t := deviceLoop th hw rest worst'
      ⟨t.worst, t.err, d :: t.devs⟩

/-- `checkP2P` from pkg/pulse/pulse.go.  rc 0 falls through to the
bandwidth comparison; rc 3 (`GPU_PULSE_ERR_P2P`) and every other nonzero
rc both produce an `InterconnectDegraded` carrier with measured 0. -/
def checkP2P (th : Thresholds) (hw : Hardware) (src dst : ℕ) : Option PulseFailure :=
  if hw.p2pRc src dst = 0 then
    if hw.p2pBwGBs src dst < th.minP2PBandwidthGBs then
      some ⟨.interconnectDegraded, "bandwidth below minimum",
        hw.p2pBwGBs src dst, th.minP2PBandwidthGBs, "gbs"⟩
    else none
  else if hw.p2pRc src dst = 3 then
    some ⟨.interconnectDegraded, "peer access unavailable",
      0, th.minP2PBandwidthGBs, "gbs"⟩
  else
    some ⟨.interconnectDegraded, "p2p check returned nonzero code",
      0, th.minP2PBandwidthGBs, "gbs"⟩

/-- The ring loop of `RunPulse`: segment (i, (i+1) mod count) for each i
in ascending order, stopping at the first failure.  Returns the failure
(if any) and the segments actually probed. -/
def p2pLoop (th : Thresholds) (hw : Hardware) (count : ℕ) :
    List ℕ → Option PulseFailure × List (ℕ × ℕ)
  | [] => (none, [])
  | i :: rest =>
    match checkP2P th hw i ((i + 1) % count) with
    | some f => (some f, [(i, (i + 1) % count)])
    | none =>
      let t := p2pLoop th hw count rest
      (t.1, (i, (i + 1) % count) :: t.2)

/-- Which branch of `RunPulse` produced the returned value — an observer
tag derived from the code's return statements. -/
inductive Stage
  | preflightStage
  | deviceStage
  | p2pStage
  | clockStage
  | passStage
  deriving DecidableEq, Repr

/-- Observable outcome of one `RunPulse` execution: the returned duration
(ns), the returned error, the producing stage, the devices the GEMM loop
entered, and the ring segments probed. -/
structure PulseOutcome where
  worst : ℤ
  err : Option PulseError
  stage : Stage
  gemmDevices : List ℕ
  p2pSegments : List (ℕ × ℕ)
  deriving DecidableEq, Repr

/-- `RunPulse` from pkg/pulse/pulse.go: preflight, device loop, ring
check (skipped when `count ≤ 1`), clock validation (its failure wrapped
in a LatencyExceeded-style carrier with measured = worst mean ms). -/
def RunPulse (th : Thresholds) (hw : Hardware) : PulseOutcome :=
  match preflight th hw.preStats with
  | some msg => ⟨0, some (.hard msg), .preflightStage, [], []⟩
  | none =>
    let count := deviceCount hw
    let dl := deviceLoop th hw (List.range count) 0
    match dl.err with
    | some e => ⟨dl.worst, some e, .deviceStage, dl.devs, []⟩
    | none =>
      let p2p := if 1 < count then p2pLoop th hw count (List.range count) else (none, [])
      match p2p.1 with
      | some f => ⟨dl.worst, some (.failure f), .p2pStage, dl.devs, p2p.2⟩
      | none =>
        match validateClocks hw.postStats with
        | some _ =>
          ⟨dl.worst, some (.failure
            ⟨.stragglerDetected, "post-pulse clock validation failed",
              ((Int.tdiv dl.worst 1000000 : ℤ) : ℚ),
              ((Int.tdiv th.stragglerThresholdNs 1000000 : ℤ) : ℚ), "ms"⟩),
            .clockStage, dl.devs, p2p.2⟩
        | none => ⟨dl.worst, none, .passStage, dl.devs, p2p.2⟩

/-! ### Threshold resolution (pkg/pulse/errors.go, pkg/pulse/syscheck.go) -/

/-- Character-list prefix test used by the substring check. -/
def hasPre : List Char → List Char → Bool
  | _, [] => true
  | [], _ :: _ => false
  | a :: as, b :: bs => a == b && hasPre as bs

/-- `strings.Contains` over character lists. -/
def hasSub : List Char → List Char → Bool
  | [], needle => hasPre [] needle
  | hay@(_ :: as), needle => hasPre hay needle || hasSub as needle

/-- `detectGPUThreshold` from pkg/pulse/syscheck.go: case-insensitive
(via upper-casing) substring match on the product name, first matching
case wins; result in nanoseconds (`time.Millisecond` = 10^6 ns). -/
def detectGPUThreshold (gpuName : String) : ℤ :=
  let name := gpuName.data.map Char.toUpper
  if hasSub name "B200".data || hasSub name "GB200".data then 15 * 1000000
  else if hasSub name "H100".data || hasSub name "H200".data then 35 * 1000000
  else if hasSub name "A100".data then 100 * 1000000
  else 500 * 1000000

/-- `stragglerThreshold` initialiser from pkg/pulse/errors.go.
`envVal` is the `os.Getenv("PULSE_THRESHOLD_MS")` result ("" when unset);
`parseInt` is the `strconv.ParseInt` oracle.  Result in nanoseconds. -/
def stragglerThreshold (envVal : String) (parseInt : String → Option ℤ)
    (gpuName : String) : ℤ :=
  if envVal ≠ "" then
    match parseInt envVal with
    | some v => if 0 < v then v * 1000000 else detectGPUThreshold gpuName
    | none => detectGPUThreshold gpuName
  else detectGPUThreshold gpuName

/-- `envFloat64` from pkg/pulse/errors.go with the `strconv.ParseFloat`
oracle as a parameter. -/
def envFloat64 (envVal : String) (parseFloat : String → Option ℚ) (dflt : ℚ) : ℚ :=
  if envVal ≠ "" then
    match parseFloat envVal with
    | some v => if 0 < v then v else dflt
    | none => dflt
  else dflt

/-- `envInt` from pkg/pulse/errors.go with the `strconv.Atoi` oracle as a
parameter. -/
def envInt (envVal : String) (atoi : String → Option ℤ) (dflt : ℤ) : ℤ :=
  if envVal ≠ "" then
    match atoi envVal with
    | some v => if 0 < v then v else dflt
    | none => dflt
  else dflt

/-! ### Reconciliation controller (pkg/k8s syncer) -/

/-- Taint key `sunk.coreweave.com/zombie-quarantine`. -/
def zombieTaintKey : String := "sunk.coreweave.com/zombie-quarantine"

/-- Condition type `GPUStraggler`. -/
def zombieCondition : String := "GPUStraggler"

/-- `corev1.NodeReady`. -/
def nodeReadyType : String := "Ready"

/-- Condition status: True / False / Unknown. -/
inductive CondStatus
  | conditionTrue
  | conditionFalse
  | conditionUnknown
  deriving DecidableEq, Repr

/-- A node taint (key, value, effect). -/
structure Taint where
  key : String
  value : String
  effect : String
  deriving DecidableEq, Repr

/-- A node status condition. -/
structure NodeCondition where
  condType : String
  status : CondStatus
  reason : String
  message : String
  /-- last transition timestamp, ns since epoch -/
  lastTransitionTime : ℤ
  deriving DecidableEq, Repr

/-- A node object as the controller sees it: spec taints and status
conditions. -/
structure Node where
  taints : List Taint
  conditions : List NodeCondition
  deriving DecidableEq, Repr

/-- `readyTransitionWindow` initialiser from the syncer: the
READY_WINDOW_SECONDS override (positive integer seconds) or 5 minutes;
result in nanoseconds. -/
def readyTransitionWindow (envVal : String) (atoi : String → Option ℤ) : ℤ :=
  if envVal ≠ "" then
    match atoi envVal with
    | some v => if 0 < v then v * 1000000000 else 300 * 1000000000
    | none => 300 * 1000000000
  else 300 * 1000000000

/-- The condition scan of `justBecameReady`: the first condition with
type Ready and status True decides via `time.Since(ltt) < within`;
no such condition means false. -/
def scanReady (within now : ℤ) : List NodeCondition → Bool
  | [] => false
  | c :: rest =>
    if c.condType = nodeReadyType ∧ c.status = CondStatus.conditionTrue then
      decide (now - c.lastTransitionTime < within)
    else scanReady within now rest

/-- `justBecameReady` from the syncer. -/
def justBecameReady (node : Node) (within now : ℤ) : Bool :=
  scanReady within now node.conditions

/-- First condition of the given type, if any. -/
def findReadyTrueCondition : List NodeCondition → Option NodeCondition
  | [] => none
  | c :: rest =>
    if c.condType = nodeReadyType ∧ c.status = CondStatus.conditionTrue then some c
    else findReadyTrueCondition rest

/-- `upsertCondition` from the syncer: replace the first condition of the
same type in place, else append. -/
def upsertCondition : List NodeCondition → NodeCondition → List NodeCondition
  | [], c => [c]
  | e :: rest, c =>
    if e.condType = c.condType then c :: rest
    else e :: upsertCondition rest c

/-- The key-presence scan at the top of `applyTaint`. -/
def hasZombieTaint (node : Node) : Bool :=
  node.taints.any (fun t => t.key == zombieTaintKey)

/-- `applyTaint` from the syncer, modelled against a fake cluster client
whose patches always succeed: returns the resulting node and the number
of patch requests issued (spec patch + status patch, or none at all when
the taint key is already present). -/
def applyTaint (now : ℤ) (node : Node) (elapsedNs : ℤ) : Node × ℕ :=
  if hasZombieTaint node then (node, 0)
  else
    let newTaints := node.taints ++
      [⟨zombieTaintKey, toString elapsedNs, "NoSchedule"⟩]
    let cond : NodeCondition :=
      ⟨zombieCondition, .conditionTrue, "StragglerDetected",
        "GPU pulse took " ++ toString elapsedNs ++ "ns (threshold 500ms)", now⟩
    (⟨newTaints, upsertCondition node.conditions cond⟩, 2)

/-- `removeTaint` from the syncer, same fake-client convention: filter
the zombie taint out; unchanged length means the taint was absent and the
whole call is a no-op (no patches); otherwise patch spec then status with
the PulsePassed condition. -/
def removeTaint (now : ℤ) (node : Node) : Node × ℕ :=
  let filtered := node.taints.filter (fun t => !(t.key == zombieTaintKey))
  if filtered.length = node.taints.length then (node, 0)
  else
    let cond : NodeCondition :=
      ⟨zombieCondition, .conditionFalse, "PulsePassed",
        "GPU pulse passed; node cleared for Slurm scheduling", now⟩
    (⟨filtered, upsertCondition node.conditions cond⟩, 2)

/-- Observable result of one `ReconcileNode` call against the fake
client: the resulting node, the returned error (always `none` in the
model since client calls succeed), how many times the injected pulse
function was invoked, and how many patch requests were issued. -/
structure ReconcileResult where
  node : Node
  goErr : Option String
  pulseInvocations : ℕ
  patches : ℕ
  deriving DecidableEq, Repr

/-- `ReconcileNode` from the syncer, after a successful node Get.  The
injected pulse function's outcome is the pair `(elapsedNs, pulseErr)`.
The straggler and hard-failure branches differ only in logging and
metrics (not modelled); both call `applyTaint`. -/
def ReconcileNode (within now : ℤ) (node : Node) (pulseElapsedNs : ℤ)
    (pulseErr : Option PulseError) : ReconcileResult :=
  if justBecameReady node within now then
    match pulseErr with
    | none =>
      let r := removeTaint now node
      ⟨r.1, none, 1, r.2⟩
    | some _ =>
      let r := applyTaint now node pulseElapsedNs
      ⟨r.1, none, 1, r.2⟩
  else ⟨node, none, 0, 0⟩

/-- Count of taints carrying the quarantine key. -/
def countZombieTaints (node : Node) : ℕ :=
  (node.taints.filter (fun t => t.key == zombieTaintKey)).length

/-- Count of conditions of the zombie-straggler type. -/
def countStragglerConds (node : Node) : ℕ :=
  (node.conditions.filter (fun c => c.condType == zombieCondition)).length

/-- First condition of the given type in a list, if any. -/
def findCondition : List NodeCondition → String → Option NodeCondition
  | [], _ => none
  | c :: rest, ty => if c.condType = ty then some c else findCondition rest ty

/-! ### Specification-side definitions (for refinement comparison) -/

/-- Modelled from the spec (§4.3): the arithmetic mean of a duration
sample, as an exact rational. -/
def ratMean (l : List ℤ) : ℚ :=
  (l.map (fun d => (d : ℚ))).sum / (l.length : ℚ)

/-- Modelled from the spec (§4.3): the population variance (square of the
population standard deviation) of a duration sample about its arithmetic
mean. -/
def popVariance (l : List ℤ) : ℚ :=
  (l.map (fun d => ((d : ℚ) - ratMean l) ^ 2)).sum / (l.length : ℚ)

/-- The worst (maximum) mean across all devices of the loop, threaded the
way `RunPulse` threads it on an all-pass loop, starting from 0. -/
def worstAcross (th : Thresholds) (hw : Hardware) (count : ℕ) : ℤ :=
  (List.range count).foldl
    (fun acc d => if acc < (runDevicePulse th hw d).1 then (runDevicePulse th hw d).1 else acc) 0

/-- The directed ring segments (i, (i+1) mod count) for i in ascending
order, from the spec (§4.5 P2P_RING). -/
def ringSegs (count : ℕ) : List (ℕ × ℕ) :=
  (List.range count).map (fun i => (i, (i + 1) % count))

/-- Whether `checkP2P` fails on a segment. -/
def segFails (th : Thresholds) (hw : Hardware) (s : ℕ × ℕ) : Bool :=
  (checkP2P th hw s.1 s.2).isSome

/-! ### Concrete fixtures for witnesses and counterexamples -/

/-- Standard resolved thresholds: 500 ms latency, 0.20 cv, 5.0 GB/s, 70 °C. -/
def thStd : Thresholds := ⟨500000000, 1/5, 5, 70⟩

/-- Two healthy devices (means 200 ns and 100 ns), ring probe (0,1)
reporting peer access unavailable (rc 3). -/
def hwP2PUnavail : Hardware :=
  { rawDeviceCount := 2
    runRc := fun _ _ => 0
    runElapsedNs := fun d _ => if d = 0 then 200 else 100
    p2pRc := fun _ _ => 3
    p2pBwGBs := fun _ _ => 50
    preStats := none
    postStats := none }

/-- Device 0 healthy with mean 200 ns; device 1 has mean 100 ns but one
outlier run (10,10,10,10,460 ns), giving cv 1.8 > 0.2: the device loop
fails on device 1 with a mean below the worst mean seen. -/
def hwDevLoopFail : Hardware :=
  { rawDeviceCount := 2
    runRc := fun _ _ => 0
    runElapsedNs := fun d i => if d = 0 then 200 else if i = 4 then 460 else 10
    p2pRc := fun _ _ => 0
    p2pBwGBs := fun _ _ => 50
    preStats := none
    postStats := none }

/-- Two healthy devices; ring probe (0,1) returns rc 2 (allocation
failure) with a healthy reported bandwidth. -/
def hwP2PAllocFail : Hardware :=
  { rawDeviceCount := 2
    runRc := fun _ _ => 0
    runElapsedNs := fun _ _ => 100
    p2pRc := fun a b => if a = 0 ∧ b = 1 then 2 else 0
    p2pBwGBs := fun _ _ => 50
    preStats := none
    postStats := none }

/-- One device with runs 10,10,10,10,460 ns (mean 100 ns, cv 1.8). -/
def hwHighCV : Hardware :=
  { rawDeviceCount := 1
    runRc := fun _ _ => 0
    runElapsedNs := fun _ i => if i = 4 then 460 else 10
    p2pRc := fun _ _ => 0
    p2pBwGBs := fun _ _ => 50
    preStats := none
    postStats := none }

/-- Healthy single device, native enumeration returning the −1 error. -/
def hwEnumErr : Hardware :=
  { rawDeviceCount := -1
    runRc := fun _ _ => 0
    runElapsedNs := fun _ _ => 100
    p2pRc := fun _ _ => 0
    p2pBwGBs := fun _ _ => 50
    preStats := none
    postStats := none }

/-- A Ready=True condition that transitioned at time 0. -/
def readyNow : NodeCondition := ⟨nodeReadyType, .conditionTrue, "", "", 0⟩

/-- A node carrying two quarantine taints and no GPUStraggler condition,
fresh off a Ready transition. -/
def taintedTwice : Node :=
  ⟨[⟨zombieTaintKey, "", "NoSchedule"⟩, ⟨zombieTaintKey, "", "NoSchedule"⟩],
   [readyNow]⟩

/-- A quarantined node (one quarantine taint), fresh off a Ready transition. -/
def nodeTainted : Node := ⟨[⟨zombieTaintKey, "x", "NoSchedule"⟩], [readyNow]⟩

/-- A node whose pre-existing quarantine-key taint has effect NoExecute. -/
def nodeNoExecute : Node := ⟨[⟨zombieTaintKey, "x", "NoExecute"⟩], [readyNow]⟩

/-- A clean node fresh off a Ready transition. -/
def nodeFresh : Node := ⟨[], [readyNow]⟩

/-! ### Helper lemmas -/

/-- `wrap64` is the identity on the int64 range. -/
theorem wrap64_eq {x : ℤ} (h1 : -9223372036854775808 ≤ x)
    (h2 : x < 9223372036854775808) : wrap64 x = x := by
  have e1 : (2 : ℤ) ^ 63 = 9223372036854775808 := by norm_num
  have e2 : (2 : ℤ) ^ 64 = 18446744073709551616 := by norm_num
  unfold wrap64
  rw [e1, e2, Int.emod_eq_of_lt (by omega) (by omega)]
  omega

/-- If every run of a device returns code 0 the run loop reports no failure. -/
theorem firstRunFailure_none (hw : Hardware) (dev : ℕ) :
    ∀ l : List ℕ, (∀ i ∈ l, hw.runRc dev i = 0) → firstRunFailure hw dev l = none := by
  intro l
  induction l with
  | nil => intro _; rfl
  | cons i rest ih =>
    intro h
    unfold firstRunFailure
    rw [if_pos (h i (by simp))]
    exact ih (fun j hj => h j (by simp [hj]))

/-- The five-run duration list of a device evaluates by `List.range`
and the oracle. -/
theorem computeStats_outlier : computeStats [10, 10, 10, 10, 460] = (100, 81/25) := by
  have e1 : wrap64 (0 + 10) = 10 := wrap64_eq (by norm_num) (by norm_num)
  have e2 : wrap64 (10 + 10) = 20 := wrap64_eq (by norm_num) (by norm_num)
  have e3 : wrap64 (20 + 10) = 30 := wrap64_eq (by norm_num) (by norm_num)
  have e4 : wrap64 (30 + 10) = 40 := wrap64_eq (by norm_num) (by norm_num)
  have e5 : wrap64 (40 + 460) = 500 := wrap64_eq (by norm_num) (by norm_num)
  have e6 : wrap64 (10 - 100) = -90 := wrap64_eq (by norm_num) (by norm_num)
  have e7 : wrap64 (460 - 100) = 360 := wrap64_eq (by norm_num) (by norm_num)
  have e8 : wrap64 (-90) = -90 := wrap64_eq (by norm_num) (by norm_num)
  have e9 : wrap64 360 = 360 := wrap64_eq (by norm_num) (by norm_num)
  have ht : Int.tdiv 500 5 = 100 := rfl
  simp only [computeStats, List.foldl_cons, List.foldl_nil, List.length_cons,
    List.length_nil, e1, e2, e3, e4, e5]
  norm_num [ht, e6, e7, e8, e9]

/-- Evaluation of `computeStats` on five constant 100 ns samples. -/
theorem computeStats_c100 : computeStats [100, 100, 100, 100, 100] = (100, 0) := by
  have e1 : wrap64 (0 + 100) = 100 := wrap64_eq (by norm_num) (by norm_num)
  have e2 : wrap64 (100 + 100) = 200 := wrap64_eq (by norm_num) (by norm_num)
  have e3 : wrap64 (200 + 100) = 300 := wrap64_eq (by norm_num) (by norm_num)
  have e4 : wrap64 (300 + 100) = 400 := wrap64_eq (by norm_num) (by norm_num)
  have e5 : wrap64 (400 + 100) = 500 := wrap64_eq (by norm_num) (by norm_num)
  have e6 : wrap64 (100 - 100) = 0 := wrap64_eq (by norm_num) (by norm_num)
  have e7 : wrap64 0 = 0 := wrap64_eq (by norm_num) (by norm_num)
  have ht : Int.tdiv 500 5 = 100 := rfl
  simp only [computeStats, List.foldl_cons, List.foldl_nil, List.length_cons,
    List.length_nil, e1, e2, e3, e4, e5]
  norm_num [ht, e6, e7]

/-- Evaluation of `computeStats` on five constant 200 ns samples. -/
theorem computeStats_c200 : computeStats [200, 200, 200, 200, 200] = (200, 0) := by
  have e1 : wrap64 (0 + 200) = 200 := wrap64_eq (by norm_num) (by norm_num)
  have e2 : wrap64 (200 + 200) = 400 := wrap64_eq (by norm_num) (by norm_num)
  have e3 : wrap64 (400 + 200) = 600 := wrap64_eq (by norm_num) (by norm_num)
  have e4 : wrap64 (600 + 200) = 800 := wrap64_eq (by norm_num) (by norm_num)
  have e5 : wrap64 (800 + 200) = 1000 := wrap64_eq (by norm_num) (by norm_num)
  have e6 : wrap64 (200 - 200) = 0 := wrap64_eq (by norm_num) (by norm_num)
  have e7 : wrap64 0 = 0 := wrap64_eq (by norm_num) (by norm_num)
  have ht : Int.tdiv 1000 5 = 200 := rfl
  simp only [computeStats, List.foldl_cons, List.foldl_nil, List.length_cons,
    List.length_nil, e1, e2, e3, e4, e5]
  norm_num [ht, e6, e7]

/-! ### Claim C8 -/

/-- Claim C8 is false as stated: on the five nanosecond samples
[1, 1, 1, 1, 2] the code returns the truncated integer mean 1 ns, not the
arithmetic mean 6/5 ns, and its coefficient of variation is not σ/μ
(compared via squares: both values are non-negative, so they are equal
iff their squares are). -/
theorem C8_counterexample :
    ((computeStats [1, 1, 1, 1, 2]).1 : ℚ) ≠ ratMean [1, 1, 1, 1, 2]
    ∧ (computeStats [1, 1, 1, 1, 2]).2
        ≠ popVariance [1, 1, 1, 1, 2] / ratMean [1, 1, 1, 1, 2] ^ 2 := by
  have e1 : wrap64 (0 + 1) = 1 := wrap64_eq (by norm_num) (by norm_num)
  have e2 : wrap64 (1 + 1) = 2 := wrap64_eq (by norm_num) (by norm_num)
  have e3 : wrap64 (2 + 1) = 3 := wrap64_eq (by norm_num) (by norm_num)
  have e4 : wrap64 (3 + 1) = 4 := wrap64_eq (by norm_num) (by norm_num)
  have e5 : wrap64 (4 + 2) = 6 := wrap64_eq (by norm_num) (by norm_num)
  have e6 : wrap64 (1 - 1) = 0 := wrap64_eq (by norm_num) (by norm_num)
  have e7 : wrap64 (2 - 1) = 1 := wrap64_eq (by norm_num) (by norm_num)
  have e8 : wrap64 0 = 0 := wrap64_eq (by norm_num) (by norm_num)
  have e9 : wrap64 1 = 1 := wrap64_eq (by norm_num) (by norm_num)
  have ht : Int.tdiv 6 5 = 1 := rfl
  have h1 : computeStats [1, 1, 1, 1, 2] = (1, 1/5) := by
    simp only [computeStats, List.foldl_cons, List.foldl_nil, List.length_cons,
      List.length_nil, e1, e2, e3, e4, e5]
    norm_num [ht, e6, e7, e8, e9]
  rw [h1]
  constructor
  · norm_num [ratMean]
  · norm_num [ratMean, popVariance]

/-- Claim C8 (amended): for five non-negative duration samples small
enough that int64 arithmetic cannot overflow, `computeStats` returns the
arithmetic mean truncated to whole nanoseconds (integer division of the
sum by 5), and the square of its coefficient of variation equals the
population variance about that truncated mean divided by the square of
the truncated mean (0 when the truncated mean is 0); in particular five
equal samples with positive common value μ give mean μ and cv exactly 0. -/
theorem C8_amended (a b c d e : ℤ)
    (ha0 : 0 ≤ a) (hb0 : 0 ≤ b) (hc0 : 0 ≤ c) (hd0 : 0 ≤ d) (he0 : 0 ≤ e)
    (ha1 : a < 2 ^ 60) (hb1 : b < 2 ^ 60) (hc1 : c < 2 ^ 60)
    (hd1 : d < 2 ^ 60) (he1 : e < 2 ^ 60) :
    (computeStats [a, b, c, d, e]).1 = (a + b + c + d + e) / 5
    ∧ (0 < (computeStats [a, b, c, d, e]).1 →
        (computeStats [a, b, c, d, e]).2 =
          ((((a : ℚ) - ((computeStats [a, b, c, d, e]).1 : ℚ)) ^ 2
            + ((b : ℚ) - ((computeStats [a, b, c, d, e]).1 : ℚ)) ^ 2
            + ((c : ℚ) - ((computeStats [a, b, c, d, e]).1 : ℚ)) ^ 2
            + ((d : ℚ) - ((computeStats [a, b, c, d, e]).1 : ℚ)) ^ 2
            + ((e : ℚ) - ((computeStats [a, b, c, d, e]).1 : ℚ)) ^ 2) / 5)
          / ((computeStats [a, b, c, d, e]).1 : ℚ) ^ 2)
    ∧ ((computeStats [a, b, c, d, e]).1 = 0 → (computeStats [a, b, c, d, e]).2 = 0)
    ∧ (a = b → b = c → c = d → d = e → 0 < a →
        (computeStats [a, b, c, d, e]).1 = a ∧ (computeStats [a, b, c, d, e]).2 = 0) := by
  have pow60 : (2 : ℤ) ^ 60 = 1152921504606846976 := by norm_num
  rw [pow60] at ha1 hb1 hc1 hd1 he1
  have hfold : List.foldl (fun x y => wrap64 (x + y)) 0 [a, b, c, d, e]
      = 0 + a + b + c + d + e := by
    simp only [List.foldl_cons, List.foldl_nil]
    rw [wrap64_eq (x := 0 + a) (by omega) (by omega)]
    rw [wrap64_eq (x := 0 + a + b) (by omega) (by omega)]
    rw [wrap64_eq (x := 0 + a + b + c) (by omega) (by omega)]
    rw [wrap64_eq (x := 0 + a + b + c + d) (by omega) (by omega)]
    rw [wrap64_eq (x := 0 + a + b + c + d + e) (by omega) (by omega)]
  have hS0 : (0 : ℤ) ≤ 0 + a + b + c + d + e := by omega
  have hlen : (([a, b, c, d, e] : List ℤ).length : ℤ) = 5 := by rfl
  have htd : Int.tdiv (0 + a + b + c + d + e) 5 = (0 + a + b + c + d + e) / 5 :=
    Int.tdiv_eq_ediv hS0 (by norm_num)
  have hm0 : 0 ≤ (0 + a + b + c + d + e) / 5 := Int.ediv_nonneg hS0 (by norm_num)
  have hm1 : (0 + a + b + c + d + e) / 5 ≤ 0 + a + b + c + d + e :=
    Int.ediv_le_self 5 hS0
  have hmean : (computeStats [a, b, c, d, e]).1 = (a + b + c + d + e) / 5 := by
    simp only [computeStats, hfold, hlen, htd]
    norm_num
  have hvar : ∀ m : ℤ, 0 ≤ m → m ≤ 0 + a + b + c + d + e →
      List.foldl (fun v x => v + ((wrap64 (x - m) : ℤ) : ℚ) ^ 2) 0 [a, b, c, d, e]
        = ((a : ℚ) - (m : ℚ)) ^ 2 + ((b : ℚ) - (m : ℚ)) ^ 2 + ((c : ℚ) - (m : ℚ)) ^ 2
          + ((d : ℚ) - (m : ℚ)) ^ 2 + ((e : ℚ) - (m : ℚ)) ^ 2 := by
    intro m hma hmb
    simp only [List.foldl_cons, List.foldl_nil]
    rw [wrap64_eq (x := a - m) (by omega) (by omega)]
    rw [wrap64_eq (x := b - m) (by omega) (by omega)]
    rw [wrap64_eq (x := c - m) (by omega) (by omega)]
    rw [wrap64_eq (x := d - m) (by omega) (by omega)]
    rw [wrap64_eq (x := e - m) (by omega) (by omega)]
    push_cast
    ring
  have hcv2 : 0 < (computeStats [a, b, c, d, e]).1 →
      (computeStats [a, b, c, d, e]).2 =
        ((((a : ℚ) - ((computeStats [a, b, c, d, e]).1 : ℚ)) ^ 2
          + ((b : ℚ) - ((computeStats [a, b, c, d, e]).1 : ℚ)) ^ 2
          + ((c : ℚ) - ((computeStats [a, b, c, d, e]).1 : ℚ)) ^ 2
          + ((d : ℚ) - ((computeStats [a, b, c, d, e]).1 : ℚ)) ^ 2
          + ((e : ℚ) - ((computeStats [a, b, c, d, e]).1 : ℚ)) ^ 2) / 5)
        / ((computeStats [a, b, c, d, e]).1 : ℚ) ^ 2 := by
    intro hpos
    rw [hmean] at hpos ⊢
    show (computeStats [a, b, c, d, e]).2 = _
    simp only [computeStats, hfold, hlen, htd]
    rw [if_pos (by omega : (0 : ℤ) < (0 + a + b + c + d + e) / 5)]
    rw [hvar _ hm0 hm1]
    have : (0 : ℤ) + a + b + c + d + e = a + b + c + d + e := by ring
    rw [this]
    norm_num
  refine ⟨hmean, hcv2, ?_, ?_⟩
  · intro hz
    rw [hmean] at hz
    simp only [computeStats, hfold, hlen, htd]
    rw [if_neg (by omega : ¬ (0 : ℤ) < (0 + a + b + c + d + e) / 5)]
  · intro h1 h2 h3 h4 h5
    subst h1; subst h2; subst h3; subst h4
    have hmeq : (computeStats [a, a, a, a, a]).1 = a := by rw [hmean]; omega
    refine ⟨hmeq, ?_⟩
    have h0 : 0 < (computeStats [a, a, a, a, a]).1 := by rw [hmeq]; exact h5
    rw [hcv2 h0, hmeq]
    norm_num

/-- Witness for C8 (amended) at the all-equal sample 7,7,7,7,7. -/
theorem C8_amended_witness :
    (computeStats [7, 7, 7, 7, 7]).1 = 7 ∧ (computeStats [7, 7, 7, 7, 7]).2 = 0 :=
  (C8_amended 7 7 7 7 7 (by norm_num) (by norm_num) (by norm_num) (by norm_num)
    (by norm_num) (by norm_num) (by norm_num) (by norm_num) (by norm_num)
    (by norm_num)).2.2.2 rfl rfl rfl rfl (by norm_num)

/-! ### Claim C7 -/

/-- Claim C7: for every override variable and every environment value the
resolved threshold field equals the parsed value iff the parse succeeds
with a strictly positive value, and otherwise equals the
architecture-calibrated default (for the latency threshold) or the plain
default; the calibration table is a case-insensitive substring match on
the product name, first match wins, in the order B200|GB200 → 15 ms,
H100|H200 → 35 ms, A100 → 100 ms, else 500 ms.  Parsing itself
(`strconv`) is an oracle parameter. -/
theorem C7 (latEnv cvEnv tEnv : String) (parseInt atoi : String → Option ℤ)
    (parseFloat : String → Option ℚ) (gpuName : String) (fDflt : ℚ) (iDflt : ℤ) :
    (∀ v : ℤ, latEnv ≠ "" → parseInt latEnv = some v → 0 < v →
      stragglerThreshold latEnv parseInt gpuName = v * 1000000)
    ∧ ((latEnv = "" ∨ parseInt latEnv = none ∨ ∃ v, parseInt latEnv = some v ∧ v ≤ 0) →
      stragglerThreshold latEnv parseInt gpuName = detectGPUThreshold gpuName)
    ∧ (∀ v : ℚ, cvEnv ≠ "" → parseFloat cvEnv = some v → 0 < v →
      envFloat64 cvEnv parseFloat fDflt = v)
    ∧ ((cvEnv = "" ∨ parseFloat cvEnv = none ∨ ∃ v, parseFloat cvEnv = some v ∧ v ≤ 0) →
      envFloat64 cvEnv parseFloat fDflt = fDflt)
    ∧ (∀ v : ℤ, tEnv ≠ "" → atoi tEnv = some v → 0 < v →
      envInt tEnv atoi iDflt = v)
    ∧ ((tEnv = "" ∨ atoi tEnv = none ∨ ∃ v, atoi tEnv = some v ∧ v ≤ 0) →
      envInt tEnv atoi iDflt = iDflt)
    ∧ detectGPUThreshold "NVIDIA B200" = 15 * 1000000
    ∧ detectGPUThreshold "nvidia gb200 nvl72" = 15 * 1000000
    ∧ detectGPUThreshold "NVIDIA H100 80GB HBM3" = 35 * 1000000
    ∧ detectGPUThreshold "h200" = 35 * 1000000
    ∧ detectGPUThreshold "NVIDIA A100-SXM4-80GB" = 100 * 1000000
    ∧ detectGPUThreshold "Tesla V100-SXM2-16GB" = 500 * 1000000
    ∧ detectGPUThreshold "A100 plus H100" = 35 * 1000000 := by
  refine ⟨?_, ?_, ?_, ?_, ?_, ?_, ?_, ?_, ?_, ?_, ?_, ?_, ?_⟩
  · intro v h1 h2 h3
    simp [stragglerThreshold, h1, h2, h3]
  · intro h
    rcases h with h | h | ⟨v, hv, hv0⟩
    · simp [stragglerThreshold, h]
    · by_cases he : latEnv = "" <;> simp [stragglerThreshold, h, he]
    · by_cases he : latEnv = "" <;>
        simp [stragglerThreshold, he, hv, not_lt.mpr hv0]
  · intro v h1 h2 h3
    simp [envFloat64, h1, h2, h3]
  · intro h
    rcases h with h | h | ⟨v, hv, hv0⟩
    · simp [envFloat64, h]
    · by_cases he : cvEnv = "" <;> simp [envFloat64, h, he]
    · by_cases he : cvEnv = "" <;>
        simp [envFloat64, he, hv, not_lt.mpr hv0]
  · intro v h1 h2 h3
    simp [envInt, h1, h2, h3]
  · intro h
    rcases h with h | h | ⟨v, hv, hv0⟩
    · simp [envInt, h]
    · by_cases he : tEnv = "" <;> simp [envInt, h, he]
    · by_cases he : tEnv = "" <;>
        simp [envInt, he, hv, not_lt.mpr hv0]
  · decide
  · decide
  · decide
  · decide
  · decide
  · decide
  · decide

/-- Witness for C7: a positive override "25" resolves to 25 ms. -/
theorem C7_witness :
    stragglerThreshold "25" (fun s => if s = "25" then some 25 else none)
      "NVIDIA H100" = 25 * 1000000 :=
  (C7 "25" "" "" (fun s => if s = "25" then some 25 else none) (fun _ => none)
    (fun _ => none) "NVIDIA H100" 1 1).1 25 (by decide) (by decide) (by decide)

/-! ### Claim C4 -/

/-- Claim C4: when all five runs of a device return native code 0, the
device verdict is LatencyExceeded exactly when the computed mean exceeds
the latency threshold (checked first, regardless of the cv); HighVariance
when the mean is within the threshold but the cv exceeds the cv ceiling
(both carried as squares in the model); pass otherwise.  The carriers
hold measured value, threshold value, and units "ms" / "cv". -/
theorem C4 (th : Thresholds) (hw : Hardware) (dev : ℕ)
    (hok : ∀ i, i < pulseRuns → hw.runRc dev i = 0) :
    (th.stragglerThresholdNs
        < (computeStats ((List.range pulseRuns).map (hw.runElapsedNs dev))).1 →
      runDevicePulse th hw dev =
        ((computeStats ((List.range pulseRuns).map (hw.runElapsedNs dev))).1,
         (computeStats ((List.range pulseRuns).map (hw.runElapsedNs dev))).2,
         some (.failure ⟨.stragglerDetected, "mean latency over threshold",
           ((Int.tdiv (computeStats ((List.range pulseRuns).map (hw.runElapsedNs dev))).1
              1000000 : ℤ) : ℚ),
           ((Int.tdiv th.stragglerThresholdNs 1000000 : ℤ) : ℚ), "ms"⟩)))
    ∧ ((computeStats ((List.range pulseRuns).map (hw.runElapsedNs dev))).1
          ≤ th.stragglerThresholdNs →
        th.maxCoefficientOfVar ^ 2
          < (computeStats ((List.range pulseRuns).map (hw.runElapsedNs dev))).2 →
      runDevicePulse th hw dev =
        ((computeStats ((List.range pulseRuns).map (hw.runElapsedNs dev))).1,
         (computeStats ((List.range pulseRuns).map (hw.runElapsedNs dev))).2,
         some (.failure ⟨.highVariance, "high run-to-run variance",
           (computeStats ((List.range pulseRuns).map (hw.runElapsedNs dev))).2,
           th.maxCoefficientOfVar ^ 2, "cv"⟩)))
    ∧ ((computeStats ((List.range pulseRuns).map (hw.runElapsedNs dev))).1
          ≤ th.stragglerThresholdNs →
        (computeStats ((List.range pulseRuns).map (hw.runElapsedNs dev))).2
          ≤ th.maxCoefficientOfVar ^ 2 →
      runDevicePulse th hw dev =
        ((computeStats ((List.range pulseRuns).map (hw.runElapsedNs dev))).1,
         (computeStats ((List.range pulseRuns).map (hw.runElapsedNs dev))).2,
         none)) := by
  have hnone : firstRunFailure hw dev (List.range pulseRuns) = none :=
    firstRunFailure_none hw dev _ (fun i hi => hok i (List.mem_range.mp hi))
  refine ⟨?_, ?_, ?_⟩
  · intro hlt
    simp only [runDevicePulse, hnone]
    rw [if_pos hlt]
  · intro hle hcv
    simp only [runDevicePulse, hnone]
    rw [if_neg (not_lt.mpr hle), if_pos hcv]
  · intro hle hcvle
    simp only [runDevicePulse, hnone]
    rw [if_neg (not_lt.mpr hle), if_neg (not_lt.mpr hcvle)]

/-- Witness for C4: the 10,10,10,10,460 ns device (mean 100 ns, cv 1.8)
fails HighVariance with the cv carrier. -/
theorem C4_witness :
    (∀ i, i < pulseRuns → hwHighCV.runRc 0 i = 0)
    ∧ runDevicePulse thStd hwHighCV 0 =
        (100, 81/25,
         some (.failure ⟨.highVariance, "high run-to-run variance",
           81/25, thStd.maxCoefficientOfVar ^ 2, "cv"⟩)) := by
  have hmap : (List.range pulseRuns).map (hwHighCV.runElapsedNs 0)
      = [10, 10, 10, 10, 460] := rfl
  have h1 := (C4 thStd hwHighCV 0 (fun _ _ => rfl)).2.1
  rw [hmap, computeStats_outlier] at h1
  exact ⟨fun _ _ => rfl, h1 (by norm_num [thStd]) (by norm_num [thStd])⟩

/-! ### Controller helper lemmas -/

/-- The taint filter keeps every element iff no element carries the
quarantine key. -/
theorem filter_neq_length (l : List Taint) :
    ((l.filter fun t => !(t.key == zombieTaintKey)).length = l.length)
      ↔ (l.any fun t => t.key == zombieTaintKey) = false := by
  induction l with
  | nil => simp
  | cons t rest ih =>
    by_cases hk : t.key == zombieTaintKey
    · simp only [List.filter_cons, List.any_cons, hk]
      simp only [Bool.not_true, Bool.true_or]
      constructor
      · intro h
        have := List.length_filter_le (fun t => !(t.key == zombieTaintKey)) rest
        simp [List.length_cons] at h
        omega
      · intro h
        cases h
    · simp only [List.filter_cons, List.any_cons, hk]
      simp only [Bool.not_false, Bool.false_or, if_pos]
      simpa using ih

/-- Filtering the quarantine key out leaves no taint with that key. -/
theorem filter_removes_zombie (l : List Taint) :
    ((l.filter fun t => !(t.key == zombieTaintKey)).filter
        fun t => t.key == zombieTaintKey).length = 0 := by
  induction l with
  | nil => rfl
  | cons t rest ih =>
    by_cases hk : t.key == zombieTaintKey
    · simpa [List.filter_cons, hk] using ih
    · simpa [List.filter_cons, hk] using ih

/-- Filtering the quarantine key out leaves no element satisfying `any`. -/
theorem any_filter_zombie (l : List Taint) :
    ((l.filter fun t => !(t.key == zombieTaintKey)).any
        fun t => t.key == zombieTaintKey) = false := by
  induction l with
  | nil => rfl
  | cons t rest ih =>
    by_cases hk : t.key == zombieTaintKey
    · simpa [List.filter_cons, hk] using ih
    · simpa [List.filter_cons, hk] using ih

/-- A list with no quarantine-key element has quarantine count 0. -/
theorem count_zero_of_any_false (l : List Taint)
    (h : (l.any fun t => t.key == zombieTaintKey) = false) :
    (l.filter fun t => t.key == zombieTaintKey).length = 0 := by
  induction l with
  | nil => rfl
  | cons t rest ih =>
    simp only [List.any_cons, Bool.or_eq_false_iff] at h
    simp only [List.filter_cons, h.1]
    exact ih h.2

/-- Appending the controller's taint to a zombie-free list yields
quarantine count exactly 1. -/
theorem count_append_zombie (l : List Taint) (v e : String)
    (h : (l.any fun t => t.key == zombieTaintKey) = false) :
    (((l ++ [⟨zombieTaintKey, v, e⟩]) : List Taint).filter
        fun t => t.key == zombieTaintKey).length = 1 := by
  rw [List.filter_append]
  simp [count_zero_of_any_false l h, List.filter_cons]

/-- `upsertCondition` on a list with at most one condition of the
inserted type yields exactly one condition of that type. -/
theorem upsertCondition_count (l : List NodeCondition) (c : NodeCondition) (ty : String)
    (hc : c.condType = ty)
    (h : (l.filter fun x => x.condType == ty).length ≤ 1) :
    ((upsertCondition l c).filter fun x => x.condType == ty).length = 1 := by
  induction l with
  | nil =>
    simp [upsertCondition, List.filter_cons, hc]
  | cons x rest ih =>
    by_cases hx : x.condType = c.condType
    · simp only [upsertCondition, if_pos hx]
      have hxty : (x.condType == ty) = true := by
        rw [hx, hc]; exact beq_self_eq_true ty
      have hcty : (c.condType == ty) = true := by
        rw [hc]; exact beq_self_eq_true ty
      simp only [List.filter_cons, hxty, hcty, if_true, List.length_cons] at h ⊢
      omega
    · simp only [upsertCondition, if_neg hx]
      have hxty : (x.condType == ty) = false := by
        rw [hc] at hx
        simpa using hx
      simp only [List.filter_cons, hxty] at h ⊢
      simp only [Bool.false_eq_true, if_neg]
      exact ih h

/-- `upsertCondition` makes the inserted condition the first of its type. -/
theorem findCondition_upsert (l : List NodeCondition) (c : NodeCondition) :
    findCondition (upsertCondition l c) c.condType = some c := by
  induction l with
  | nil => simp [upsertCondition, findCondition]
  | cons x rest ih =>
    by_cases hx : x.condType = c.condType
    · simp [upsertCondition, if_pos hx, findCondition]
    · simp only [upsertCondition, if_neg hx, findCondition]
      exact ih

/-- `scanReady` is decided by the first Ready=True condition. -/
theorem scanReady_eq (within now : ℤ) (l : List NodeCondition) :
    scanReady within now l = (match findReadyTrueCondition l with
      | none => false
      | some c => decide (now - c.lastTransitionTime < within)) := by
  induction l with
  | nil => rfl
  | cons c rest ih =>
    by_cases hc : c.condType = nodeReadyType ∧ c.status = CondStatus.conditionTrue
    · simp [scanReady, findReadyTrueCondition, hc]
    · simp only [scanReady, findReadyTrueCondition, if_neg hc]
      exact ih

/-- `removeTaint` on a taint-free node is a no-op with no patches. -/
theorem removeTaint_absent (now : ℤ) (node : Node) (h : hasZombieTaint node = false) :
    removeTaint now node = (node, 0) := by
  unfold removeTaint
  rw [if_pos ((filter_neq_length node.taints).mpr h)]

/-- `removeTaint` on a tainted node filters the taint and upserts the
PulsePassed condition with two patches. -/
theorem removeTaint_present (now : ℤ) (node : Node) (h : hasZombieTaint node = true) :
    removeTaint now node =
      (⟨node.taints.filter (fun t => !(t.key == zombieTaintKey)),
        upsertCondition node.conditions
          ⟨zombieCondition, .conditionFalse, "PulsePassed",
            "GPU pulse passed; node cleared for Slurm scheduling", now⟩⟩, 2) := by
  unfold removeTaint
  rw [if_neg]
  intro hlen
  have := (filter_neq_length node.taints).mp hlen
  rw [hasZombieTaint] at h
  rw [this] at h
  cases h

/-- `applyTaint` on an already-tainted node is a no-op with no patches. -/
theorem applyTaint_present (now : ℤ) (node : Node) (e : ℤ)
    (h : hasZombieTaint node = true) :
    applyTaint now node e = (node, 0) := by
  unfold applyTaint
  rw [if_pos h]

/-- `applyTaint` on a taint-free node appends the NoSchedule taint and
upserts the StragglerDetected condition with two patches. -/
theorem applyTaint_absent (now : ℤ) (node : Node) (e : ℤ)
    (h : hasZombieTaint node = false) :
    applyTaint now node e =
      (⟨node.taints ++ [⟨zombieTaintKey, toString e, "NoSchedule"⟩],
        upsertCondition node.conditions
          ⟨zombieCondition, .conditionTrue, "StragglerDetected",
            "GPU pulse took " ++ toString e ++ "ns (threshold 500ms)", now⟩⟩, 2) := by
  unfold applyTaint
  rw [if_neg]
  rw [h]
  intro hx
  cases hx

/-- A gated `ReconcileNode` call returns the node unchanged with no
pulse invocation and no patches. -/
theorem reconcile_gated (within now elapsed : ℤ) (node : Node)
    (perr : Option PulseError) (h : justBecameReady node within now = false) :
    ReconcileNode within now node elapsed perr = ⟨node, none, 0, 0⟩ := by
  unfold ReconcileNode
  rw [h]
  cases perr <;> rfl

/-- An ungated passing `ReconcileNode` call runs `removeTaint`. -/
theorem reconcile_pass (within now elapsed : ℤ) (node : Node)
    (h : justBecameReady node within now = true) :
    ReconcileNode within now node elapsed none
      = ⟨(removeTaint now node).1, none, 1, (removeTaint now node).2⟩ := by
  unfold ReconcileNode
  rw [h]
  rfl

/-- An ungated failing `ReconcileNode` call runs `applyTaint`. -/
theorem reconcile_fail (within now elapsed : ℤ) (node : Node) (e : PulseError)
    (h : justBecameReady node within now = true) :
    ReconcileNode within now node elapsed (some e)
      = ⟨(applyTaint now node elapsed).1, none, 1, (applyTaint now node elapsed).2⟩ := by
  unfold ReconcileNode
  rw [h]
  rfl

/-! ### Pipeline helper lemmas -/

/-- A device loop that reports no error visited every device and threads
the running maximum of the means. -/
theorem deviceLoop_pass (th : Thresholds) (hw : Hardware) :
    ∀ (l : List ℕ) (w : ℤ), (deviceLoop th hw l w).err = none →
      (deviceLoop th hw l w).worst
          = l.foldl (fun acc d => if acc < (runDevicePulse th hw d).1
              then (runDevicePulse th hw d).1 else acc) w
      ∧ (deviceLoop th hw l w).devs = l := by
  intro l
  induction l with
  | nil => intro w _; exact ⟨rfl, rfl⟩
  | cons d rest ih =>
    intro w herr
    cases hrd : (runDevicePulse th hw d).2.2 with
    | some e =>
      simp only [deviceLoop, hrd] at herr
      cases herr
    | none =>
      simp only [deviceLoop, hrd] at herr ⊢
      refine ⟨(ih _ herr).1, ?_⟩
      rw [(ih _ herr).2]

/-- A device loop that reports an error returns the failing device's own
mean (or elapsed value) as its worst field. -/
theorem deviceLoop_fail (th : Thresholds) (hw : Hardware) :
    ∀ (l : List ℕ) (w : ℤ) (e : PulseError),
      (deviceLoop th hw l w).err = some e →
      ∃ d, d ∈ l ∧ (runDevicePulse th hw d).2.2 = some e
        ∧ (deviceLoop th hw l w).worst = (runDevicePulse th hw d).1 := by
  intro l
  induction l with
  | nil => intro w e h; cases h
  | cons d rest ih =>
    intro w e h
    cases hrd : (runDevicePulse th hw d).2.2 with
    | some g =>
      simp only [deviceLoop, hrd] at h ⊢
      cases h
      exact ⟨d, by simp, hrd, rfl⟩
    | none =>
      simp only [deviceLoop, hrd] at h ⊢
      obtain ⟨d', hd', he', hw'⟩ := ih _ e h
      exact ⟨d', by simp [hd'], he', hw'⟩

/-- A failing `checkP2P` always carries the InterconnectDegraded sentinel. -/
theorem checkP2P_cause (th : Thresholds) (hw : Hardware) (a b : ℕ) (f : PulseFailure)
    (h : checkP2P th hw a b = some f) : f.cause = .interconnectDegraded := by
  unfold checkP2P at h
  split at h
  · split at h
    · cases h; rfl
    · cases h
  · split at h
    · cases h; rfl
    · cases h; rfl

/-- `segFails` is false exactly when `checkP2P` reports no failure. -/
theorem segFails_false_iff (th : Thresholds) (hw : Hardware) (s : ℕ × ℕ) :
    segFails th hw s = false ↔ checkP2P th hw s.1 s.2 = none := by
  unfold segFails
  cases checkP2P th hw s.1 s.2 <;> simp

/-- A ring loop over segments that all pass probes all of them in order. -/
theorem p2pLoop_pass (th : Thresholds) (hw : Hardware) (count : ℕ) :
    ∀ l, (∀ i ∈ l, checkP2P th hw i ((i + 1) % count) = none) →
      p2pLoop th hw count l = (none, l.map (fun i => (i, (i + 1) % count))) := by
  intro l
  induction l with
  | nil => intro _; rfl
  | cons i rest ih =>
    intro h
    simp only [p2pLoop, h i (by simp)]
    rw [ih (fun j hj => h j (by simp [hj]))]
    rfl

/-- The ring loop fails only with InterconnectDegraded carriers. -/
theorem p2pLoop_fail_cause (th : Thresholds) (hw : Hardware) (count : ℕ) :
    ∀ l (f : PulseFailure), (p2pLoop th hw count l).1 = some f →
      f.cause = .interconnectDegraded := by
  intro l
  induction l with
  | nil => intro f h; cases h
  | cons i rest ih =>
    intro f h
    cases hc : checkP2P th hw i ((i + 1) % count) with
    | some g =>
      simp only [p2pLoop, hc] at h
      cases h
      exact checkP2P_cause th hw _ _ _ hc
    | none =>
      simp only [p2pLoop, hc] at h
      exact ih f h

/-- The ring loop reports no failure iff every segment passes. -/
theorem p2pLoop_none_iff (th : Thresholds) (hw : Hardware) (count : ℕ) :
    ∀ l, ((p2pLoop th hw count l).1 = none
      ↔ ∀ i ∈ l, checkP2P th hw i ((i + 1) % count) = none) := by
  intro l
  induction l with
  | nil => simp [p2pLoop]
  | cons i rest ih =>
    cases hc : checkP2P th hw i ((i + 1) % count) with
    | some g => simp [p2pLoop, hc]
    | none => simp [p2pLoop, hc, ih]

/-- The run loop only reads the native run oracles. -/
theorem firstRunFailure_congr (hw hw' : Hardware) (dev : ℕ)
    (h1 : hw.runRc = hw'.runRc) (h2 : hw.runElapsedNs = hw'.runElapsedNs) :
    ∀ l, firstRunFailure hw dev l = firstRunFailure hw' dev l := by
  intro l
  induction l with
  | nil => rfl
  | cons i rest ih => simp only [firstRunFailure, h1, h2, ih]

/-- `runDevicePulse` only reads the native run oracles. -/
theorem runDevicePulse_congr (th : Thresholds) (hw hw' : Hardware) (dev : ℕ)
    (h1 : hw.runRc = hw'.runRc) (h2 : hw.runElapsedNs = hw'.runElapsedNs) :
    runDevicePulse th hw dev = runDevicePulse th hw' dev := by
  unfold runDevicePulse
  rw [firstRunFailure_congr hw hw' dev h1 h2, h2]

/-- The device loop only reads the native run oracles. -/
theorem deviceLoop_congr (th : Thresholds) (hw hw' : Hardware)
    (h1 : hw.runRc = hw'.runRc) (h2 : hw.runElapsedNs = hw'.runElapsedNs) :
    ∀ (l : List ℕ) (w : ℤ), deviceLoop th hw l w = deviceLoop th hw' l w := by
  intro l
  induction l with
  | nil => intro w; rfl
  | cons d rest ih =>
    intro w
    simp only [deviceLoop, runDevicePulse_congr th hw hw' d h1 h2, ih]

/-- `checkP2P` only reads the peer-to-peer oracles. -/
theorem checkP2P_congr (th : Thresholds) (hw hw' : Hardware) (a b : ℕ)
    (h3 : hw.p2pRc = hw'.p2pRc) (h4 : hw.p2pBwGBs = hw'.p2pBwGBs) :
    checkP2P th hw a b = checkP2P th hw' a b := by
  unfold checkP2P
  rw [h3, h4]

/-- The ring loop only reads the peer-to-peer oracles. -/
theorem p2pLoop_congr (th : Thresholds) (hw hw' : Hardware) (count : ℕ)
    (h3 : hw.p2pRc = hw'.p2pRc) (h4 : hw.p2pBwGBs = hw'.p2pBwGBs) :
    ∀ l, p2pLoop th hw count l = p2pLoop th hw' count l := by
  intro l
  induction l with
  | nil => rfl
  | cons i rest ih =>
    simp only [p2pLoop, checkP2P_congr th hw hw' i ((i + 1) % count) h3 h4, ih]

/-- `RunPulse` depends on the hardware only through the oracle fields and
the clamped device count. -/
theorem RunPulse_congr (th : Thresholds) (hw hw' : Hardware)
    (h1 : hw.runRc = hw'.runRc) (h2 : hw.runElapsedNs = hw'.runElapsedNs)
    (h3 : hw.p2pRc = hw'.p2pRc) (h4 : hw.p2pBwGBs = hw'.p2pBwGBs)
    (h5 : hw.preStats = hw'.preStats) (h6 : hw.postStats = hw'.postStats)
    (h7 : deviceCount hw = deviceCount hw') :
    RunPulse th hw = RunPulse th hw' := by
  unfold RunPulse
  dsimp only
  rw [h5, h6, h7, deviceLoop_congr th hw hw' h1 h2,
    p2pLoop_congr th hw hw' (deviceCount hw') h3 h4]

/-! ### Claim C1 -/

/-- Claim C1 is false as stated: a node carrying two quarantine-key
taints and no GPUStraggler condition whose recency gate does not pass
(its Ready condition transitioned long ago is not even needed — pulse
failure with the taint key already present is also a no-op) is returned
unchanged by a successful `ReconcileNode` call, with 2 quarantine taints
and 0 GPUStraggler conditions. -/
theorem C1_counterexample :
    ¬ (countZombieTaints (ReconcileNode 300000000000 0 taintedTwice 0
          (some (.hard "cuda error"))).node ≤ 1
       ∧ countStragglerConds (ReconcileNode 300000000000 0 taintedTwice 0
          (some (.hard "cuda error"))).node = 1) := by
  decide

/-- Claim C1 (amended): for every node that starts with at most one
quarantine-key taint and at most one GPUStraggler condition, and every
hardware outcome, a successful `ReconcileNode` call leaves at most one
quarantine-key taint; whenever the call issued any patch the
GPUStraggler-condition count is exactly one, and a call that issued no
patch returns the node unchanged. -/
theorem C1_amended (within now elapsed : ℤ) (node : Node) (perr : Option PulseError)
    (h1 : countZombieTaints node ≤ 1) (h2 : countStragglerConds node ≤ 1) :
    countZombieTaints (ReconcileNode within now node elapsed perr).node ≤ 1
    ∧ (0 < (ReconcileNode within now node elapsed perr).patches →
        countStragglerConds (ReconcileNode within now node elapsed perr).node = 1)
    ∧ ((ReconcileNode within now node elapsed perr).patches = 0 →
        (ReconcileNode within now node elapsed perr).node = node) := by
  cases hjr : justBecameReady node within now with
  | false =>
    rw [reconcile_gated within now elapsed node perr hjr]
    refine ⟨h1, ?_, fun _ => rfl⟩
    intro hp
    exact absurd hp (by norm_num)
  | true =>
    cases perr with
    | none =>
      rw [reconcile_pass within now elapsed node hjr]
      cases hz : hasZombieTaint node with
      | false =>
        rw [removeTaint_absent now node hz]
        refine ⟨h1, ?_, fun _ => rfl⟩
        intro hp
        exact absurd hp (by norm_num)
      | true =>
        rw [removeTaint_present now node hz]
        refine ⟨?_, ?_, ?_⟩
        · show (List.filter _ (List.filter _ node.taints)).length ≤ 1
          rw [filter_removes_zombie node.taints]
          norm_num
        · intro _
          exact upsertCondition_count node.conditions _ zombieCondition rfl h2
        · intro hp
          exact absurd hp (by norm_num)
    | some e =>
      rw [reconcile_fail within now elapsed node e hjr]
      cases hz : hasZombieTaint node with
      | true =>
        rw [applyTaint_present now node elapsed hz]
        refine ⟨h1, ?_, fun _ => rfl⟩
        intro hp
        exact absurd hp (by norm_num)
      | false =>
        rw [applyTaint_absent now node elapsed hz]
        refine ⟨?_, ?_, ?_⟩
        · show (List.filter _ (node.taints ++ _)).length ≤ 1
          rw [count_append_zombie node.taints _ _ hz]
        · intro _
          exact upsertCondition_count node.conditions _ zombieCondition rfl h2
        · intro hp
          exact absurd hp (by norm_num)

/-- Witness for C1 (amended) on a fresh clean node with a failing pulse:
the taint is applied, one patch pair is issued, and the counts are 1. -/
theorem C1_amended_witness :
    countZombieTaints (ReconcileNode 300000000000 0 nodeFresh 0
        (some (.hard "cuda error"))).node ≤ 1
    ∧ (0 < (ReconcileNode 300000000000 0 nodeFresh 0
        (some (.hard "cuda error"))).patches →
      countStragglerConds (ReconcileNode 300000000000 0 nodeFresh 0
        (some (.hard "cuda error"))).node = 1) :=
  ⟨(C1_amended 300000000000 0 0 nodeFresh (some (.hard "cuda error"))
      (by decide) (by decide)).1,
   (C1_amended 300000000000 0 0 nodeFresh (some (.hard "cuda error"))
      (by decide) (by decide)).2.1⟩

/-! ### Claim C2 -/

/-- Claim C2: on a pulse pass, `ReconcileNode` removes the quarantine
taint when present (ending with zero quarantine taints, the GPUStraggler
condition upserted to status False reason "PulsePassed", and a spec and a
status patch issued), and when the taint is absent the whole call is a
no-op issuing no patch; the pulse is invoked exactly once. -/
theorem C2 (within now elapsed : ℤ) (node : Node)
    (hready : justBecameReady node within now = true) :
    (hasZombieTaint node = true →
      (ReconcileNode within now node elapsed none).node.taints
          = node.taints.filter (fun t => !(t.key == zombieTaintKey))
      ∧ hasZombieTaint (ReconcileNode within now node elapsed none).node = false
      ∧ findCondition (ReconcileNode within now node elapsed none).node.conditions
          zombieCondition
          = some ⟨zombieCondition, .conditionFalse, "PulsePassed",
              "GPU pulse passed; node cleared for Slurm scheduling", now⟩
      ∧ (ReconcileNode within now node elapsed none).patches = 2)
    ∧ (hasZombieTaint node = false →
      (ReconcileNode within now node elapsed none) = ⟨node, none, 1, 0⟩)
    ∧ (ReconcileNode within now node elapsed none).pulseInvocations = 1 := by
  rw [reconcile_pass within now elapsed node hready]
  refine ⟨?_, ?_, rfl⟩
  · intro hz
    rw [removeTaint_present now node hz]
    refine ⟨rfl, ?_, ?_, rfl⟩
    · show (List.any (List.filter _ node.taints) _) = false
      exact any_filter_zombie node.taints
    · exact findCondition_upsert node.conditions _
  · intro hz
    rw [removeTaint_absent now node hz]

/-- Witness for C2 on a quarantined node fresh off a Ready transition. -/
theorem C2_witness :
    (ReconcileNode 300000000000 0 nodeTainted 0 none).node.taints
        = nodeTainted.taints.filter (fun t => !(t.key == zombieTaintKey))
    ∧ hasZombieTaint (ReconcileNode 300000000000 0 nodeTainted 0 none).node = false
    ∧ findCondition (ReconcileNode 300000000000 0 nodeTainted 0 none).node.conditions
        zombieCondition
        = some ⟨zombieCondition, .conditionFalse, "PulsePassed",
            "GPU pulse passed; node cleared for Slurm scheduling", 0⟩
    ∧ (ReconcileNode 300000000000 0 nodeTainted 0 none).patches = 2 :=
  (C2 300000000000 0 0 nodeTainted (by decide)).1 (by decide)

/-! ### Claim C5 -/

/-- Claim C5: when the node has no Ready=True condition, or its first
Ready=True condition transitioned at least the ready window ago,
`ReconcileNode` returns success with the node untouched and the pulse
invoked zero times; and with no environment override the resolved ready
window is 300 seconds. -/
theorem C5 (within now elapsed : ℤ) (node : Node) (perr : Option PulseError)
    (h : findReadyTrueCondition node.conditions = none
      ∨ ∃ c, findReadyTrueCondition node.conditions = some c
          ∧ within ≤ now - c.lastTransitionTime) :
    ReconcileNode within now node elapsed perr = ⟨node, none, 0, 0⟩
    ∧ (∀ atoi : String → Option ℤ,
        readyTransitionWindow "" atoi = 300 * 1000000000) := by
  have hready : justBecameReady node within now = false := by
    unfold justBecameReady
    rw [scanReady_eq]
    rcases h with h | ⟨c, hc, hge⟩
    · rw [h]
    · rw [hc]
      simp only [decide_eq_false_iff_not, not_lt]
      omega
  exact ⟨reconcile_gated within now elapsed node perr hready, fun _ => rfl⟩

/-- Witness for C5: a node whose Ready transition is 1000 s old under a
300 s window is left untouched. -/
theorem C5_witness :
    ReconcileNode 300000000000 1000000000000 nodeFresh 0 none
      = ⟨nodeFresh, none, 0, 0⟩ :=
  (C5 300000000000 1000000000000 0 nodeFresh none
    (Or.inr ⟨readyNow, rfl, by norm_num [readyNow]⟩)).1

/-! ### Claim C9 -/

/-- Claim C9 is false as stated: a quarantine outcome on a node whose
pre-existing quarantine-key taint has effect NoExecute is a no-op (by key
alone), so the resulting taint's effect is not NoSchedule. -/
theorem C9_counterexample :
    (ReconcileNode 300000000000 0 nodeNoExecute 0 (some (.hard "cuda error"))).node
      = nodeNoExecute
    ∧ ¬ (∀ t ∈ (ReconcileNode 300000000000 0 nodeNoExecute 0
          (some (.hard "cuda error"))).node.taints,
        t.key = zombieTaintKey → t.effect = "NoSchedule") := by
  refine ⟨by decide, by decide⟩

/-- Claim C9 (amended): on a quarantine outcome, if the node had no
quarantine-key taint the result carries exactly one and its effect is
NoSchedule; if any taint with the key already existed (whatever its value
or effect) the node is returned unchanged — the no-op is decided by key
presence alone. -/
theorem C9_amended (within now elapsed : ℤ) (node : Node) (e : PulseError)
    (hready : justBecameReady node within now = true) :
    (hasZombieTaint node = false →
      countZombieTaints (ReconcileNode within now node elapsed (some e)).node = 1
      ∧ (∀ t ∈ (ReconcileNode within now node elapsed (some e)).node.taints,
          t.key = zombieTaintKey → t.effect = "NoSchedule"))
    ∧ (hasZombieTaint node = true →
      (ReconcileNode within now node elapsed (some e)).node = node) := by
  rw [reconcile_fail within now elapsed node e hready]
  constructor
  · intro hz
    rw [applyTaint_absent now node elapsed hz]
    constructor
    · show (List.filter _ (node.taints ++ _)).length = 1
      exact count_append_zombie node.taints _ _ hz
    · intro t ht hkey
      simp only [List.mem_append, List.mem_singleton] at ht
      rcases ht with ht | ht
      · exfalso
        rw [hasZombieTaint] at hz
        have hkt : (t.key == zombieTaintKey) = true := by
          rw [hkey]; exact beq_self_eq_true zombieTaintKey
        have hany : (node.taints.any fun s => s.key == zombieTaintKey) = true := by
          rw [List.any_eq_true]
          exact ⟨t, ht, hkt⟩
        rw [hz] at hany
        cases hany
      · rw [ht]
  · intro hz
    rw [applyTaint_present now node elapsed hz]

/-- Witness for C9 (amended): a failing pulse on a clean fresh node
applies exactly one NoSchedule quarantine taint. -/
theorem C9_amended_witness :
    countZombieTaints (ReconcileNode 300000000000 0 nodeFresh 0
        (some (.hard "cuda error"))).node = 1
    ∧ (∀ t ∈ (ReconcileNode 300000000000 0 nodeFresh 0
        (some (.hard "cuda error"))).node.taints,
      t.key = zombieTaintKey → t.effect = "NoSchedule") :=
  (C9_amended 300000000000 0 0 nodeFresh (.hard "cuda error")
    (by decide)).1 (by decide)

/-! ### Concrete pipeline evaluations -/

/-- The device loop on `hwP2PUnavail` passes with worst mean 200 ns. -/
theorem deviceLoop_unavail_eval :
    deviceLoop thStd hwP2PUnavail [0, 1] 0 = ⟨200, none, [0, 1]⟩ := by
  have hfr0 : firstRunFailure hwP2PUnavail 0 (List.range pulseRuns) = none := rfl
  have hfr1 : firstRunFailure hwP2PUnavail 1 (List.range pulseRuns) = none := rfl
  have hmap0 : (List.range pulseRuns).map (hwP2PUnavail.runElapsedNs 0)
      = [200, 200, 200, 200, 200] := rfl
  have hmap1 : (List.range pulseRuns).map (hwP2PUnavail.runElapsedNs 1)
      = [100, 100, 100, 100, 100] := rfl
  have hd0 : runDevicePulse thStd hwP2PUnavail 0 = (200, 0, none) := by
    simp only [runDevicePulse, hfr0, hmap0, computeStats_c200]
    norm_num [thStd]
  have hd1 : runDevicePulse thStd hwP2PUnavail 1 = (100, 0, none) := by
    simp only [runDevicePulse, hfr1, hmap1, computeStats_c100]
    norm_num [thStd]
  simp only [deviceLoop, hd0, hd1]
  norm_num

/-- `RunPulse` on `hwP2PUnavail` fails at the P2P stage with the worst
mean 200 ns. -/
theorem RunPulse_unavail_eval :
    RunPulse thStd hwP2PUnavail
      = ⟨200, some (.failure ⟨.interconnectDegraded, "peer access unavailable", 0,
          thStd.minP2PBandwidthGBs, "gbs"⟩), .p2pStage, [0, 1], [(0, 1)]⟩ := by
  have hpre : preflight thStd hwP2PUnavail.preStats = none := rfl
  have hcount : deviceCount hwP2PUnavail = 2 := rfl
  have hrange2 : List.range 2 = [0, 1] := rfl
  have hcp : checkP2P thStd hwP2PUnavail 0 1
      = some ⟨.interconnectDegraded, "peer access unavailable", 0,
          thStd.minP2PBandwidthGBs, "gbs"⟩ := rfl
  have hp2p : p2pLoop thStd hwP2PUnavail 2 [0, 1]
      = (some ⟨.interconnectDegraded, "peer access unavailable", 0,
          thStd.minP2PBandwidthGBs, "gbs"⟩, [(0, 1)]) := by
    simp only [p2pLoop]
    norm_num [hcp]
  simp only [RunPulse, hpre, hcount, hrange2, deviceLoop_unavail_eval, hp2p]
  norm_num

/-- The device loop on `hwDevLoopFail` fails on device 1 with mean
100 ns after device 0 passed with mean 200 ns. -/
theorem deviceLoop_devfail_eval :
    deviceLoop thStd hwDevLoopFail [0, 1] 0
      = ⟨100, some (.failure ⟨.highVariance, "high run-to-run variance",
          81/25, 1/25, "cv"⟩), [0, 1]⟩ := by
  have hfr0 : firstRunFailure hwDevLoopFail 0 (List.range pulseRuns) = none := rfl
  have hfr1 : firstRunFailure hwDevLoopFail 1 (List.range pulseRuns) = none := rfl
  have hmap0 : (List.range pulseRuns).map (hwDevLoopFail.runElapsedNs 0)
      = [200, 200, 200, 200, 200] := rfl
  have hmap1 : (List.range pulseRuns).map (hwDevLoopFail.runElapsedNs 1)
      = [10, 10, 10, 10, 460] := rfl
  have hd0 : runDevicePulse thStd hwDevLoopFail 0 = (200, 0, none) := by
    simp only [runDevicePulse, hfr0, hmap0, computeStats_c200]
    norm_num [thStd]
  have hd1 : runDevicePulse thStd hwDevLoopFail 1
      = (100, 81/25, some (.failure ⟨.highVariance, "high run-to-run variance",
          81/25, 1/25, "cv"⟩)) := by
    simp only [runDevicePulse, hfr1, hmap1, computeStats_outlier]
    norm_num [thStd]
  simp only [deviceLoop, hd0, hd1]

/-- `RunPulse` on `hwDevLoopFail` fails in the device loop returning the
failing device's mean 100 ns, below the worst processed mean 200 ns. -/
theorem RunPulse_devfail_eval :
    RunPulse thStd hwDevLoopFail
      = ⟨100, some (.failure ⟨.highVariance, "high run-to-run variance",
          81/25, 1/25, "cv"⟩), .deviceStage, [0, 1], []⟩ := by
  have hpre : preflight thStd hwDevLoopFail.preStats = none := rfl
  have hcount : deviceCount hwDevLoopFail = 2 := rfl
  have hrange2 : List.range 2 = [0, 1] := rfl
  simp only [RunPulse, hpre, hcount, hrange2, deviceLoop_devfail_eval]

/-- `RunPulse` on `hwP2PAllocFail` fails at the P2P stage on the rc 2
(allocation failure) branch of `checkP2P`. -/
theorem RunPulse_allocfail_eval :
    RunPulse thStd hwP2PAllocFail
      = ⟨100, some (.failure ⟨.interconnectDegraded,
          "p2p check returned nonzero code", 0,
          thStd.minP2PBandwidthGBs, "gbs"⟩), .p2pStage, [0, 1], [(0, 1)]⟩ := by
  have hfr0 : firstRunFailure hwP2PAllocFail 0 (List.range pulseRuns) = none := rfl
  have hfr1 : firstRunFailure hwP2PAllocFail 1 (List.range pulseRuns) = none := rfl
  have hmap0 : (List.range pulseRuns).map (hwP2PAllocFail.runElapsedNs 0)
      = [100, 100, 100, 100, 100] := rfl
  have hmap1 : (List.range pulseRuns).map (hwP2PAllocFail.runElapsedNs 1)
      = [100, 100, 100, 100, 100] := rfl
  have hd0 : runDevicePulse thStd hwP2PAllocFail 0 = (100, 0, none) := by
    simp only [runDevicePulse, hfr0, hmap0, computeStats_c100]
    norm_num [thStd]
  have hd1 : runDevicePulse thStd hwP2PAllocFail 1 = (100, 0, none) := by
    simp only [runDevicePulse, hfr1, hmap1, computeStats_c100]
    norm_num [thStd]
  have hdl : deviceLoop thStd hwP2PAllocFail [0, 1] 0 = ⟨100, none, [0, 1]⟩ := by
    simp only [deviceLoop, hd0, hd1]
    norm_num
  have hcp : checkP2P thStd hwP2PAllocFail 0 1
      = some ⟨.interconnectDegraded, "p2p check returned nonzero code", 0,
          thStd.minP2PBandwidthGBs, "gbs"⟩ := rfl
  have hp2p : p2pLoop thStd hwP2PAllocFail 2 [0, 1]
      = (some ⟨.interconnectDegraded, "p2p check returned nonzero code", 0,
          thStd.minP2PBandwidthGBs, "gbs"⟩, [(0, 1)]) := by
    simp only [p2pLoop]
    norm_num [hcp]
  have hpre : preflight thStd hwP2PAllocFail.preStats = none := rfl
  have hcount : deviceCount hwP2PAllocFail = 2 := rfl
  have hrange2 : List.range 2 = [0, 1] := rfl
  simp only [RunPulse, hpre, hcount, hrange2, hdl, hp2p]
  norm_num

/-! ### Claim C3 -/

/-- Claim C3 is false as stated: on `hwDevLoopFail` the pipeline fails in
the device loop after processing devices 0 and 1, but returns the failing
device's mean 100 ns rather than the worst mean seen so far (200 ns, from
device 0). -/
theorem C3_counterexample :
    (RunPulse thStd hwDevLoopFail).stage = .deviceStage
    ∧ (RunPulse thStd hwDevLoopFail).gemmDevices = [0, 1]
    ∧ (runDevicePulse thStd hwDevLoopFail 0).1 = 200
    ∧ (RunPulse thStd hwDevLoopFail).worst = 100
    ∧ (RunPulse thStd hwDevLoopFail).worst
        ≠ worstAcross thStd hwDevLoopFail (deviceCount hwDevLoopFail) := by
  have hfr0 : firstRunFailure hwDevLoopFail 0 (List.range pulseRuns) = none := rfl
  have hmap0 : (List.range pulseRuns).map (hwDevLoopFail.runElapsedNs 0)
      = [200, 200, 200, 200, 200] := rfl
  have hd0 : runDevicePulse thStd hwDevLoopFail 0 = (200, 0, none) := by
    simp only [runDevicePulse, hfr0, hmap0, computeStats_c200]
    norm_num [thStd]
  have hfr1 : firstRunFailure hwDevLoopFail 1 (List.range pulseRuns) = none := rfl
  have hmap1 : (List.range pulseRuns).map (hwDevLoopFail.runElapsedNs 1)
      = [10, 10, 10, 10, 460] := rfl
  have hd1 : runDevicePulse thStd hwDevLoopFail 1
      = (100, 81/25, some (.failure ⟨.highVariance, "high run-to-run variance",
          81/25, 1/25, "cv"⟩)) := by
    simp only [runDevicePulse, hfr1, hmap1, computeStats_outlier]
    norm_num [thStd]
  have hcount : deviceCount hwDevLoopFail = 2 := rfl
  have hrange2 : List.range 2 = [0, 1] := rfl
  have hwa : worstAcross thStd hwDevLoopFail (deviceCount hwDevLoopFail) = 200 := by
    simp only [worstAcross, hcount, hrange2, List.foldl_cons, List.foldl_nil,
      hd0, hd1]
    norm_num
  rw [RunPulse_devfail_eval, hwa, hd0]
  refine ⟨rfl, rfl, rfl, rfl, by norm_num⟩

/-- Claim C3 (amended): on a pass and on P2P-stage and clock-stage
failures, `RunPulse` returns the worst (maximum) mean across all
processed devices; on a device-loop failure it returns the failing
device's own result value (its mean, or the failing run's elapsed time on
a native error), not the maximum so far; on a preflight failure it
returns 0. -/
theorem C3_amended (th : Thresholds) (hw : Hardware) :
    ((RunPulse th hw).stage = .p2pStage ∨ (RunPulse th hw).stage = .clockStage
        ∨ (RunPulse th hw).stage = .passStage →
      (RunPulse th hw).worst = worstAcross th hw (deviceCount hw))
    ∧ ((RunPulse th hw).stage = .deviceStage →
      ∃ d ∈ List.range (deviceCount hw),
        (runDevicePulse th hw d).2.2 = (RunPulse th hw).err
        ∧ (RunPulse th hw).worst = (runDevicePulse th hw d).1)
    ∧ ((RunPulse th hw).stage = .preflightStage → (RunPulse th hw).worst = 0) := by
  cases hpre : preflight th hw.preStats with
  | some msg =>
    simp only [RunPulse, hpre]
    refine ⟨?_, ?_, fun _ => by trivial⟩
    · rintro (h | h | h) <;> exact absurd h (by decide)
    · intro h; exact absurd h (by decide)
  | none =>
    cases hdl : (deviceLoop th hw (List.range (deviceCount hw)) 0).err with
    | some e =>
      simp only [RunPulse, hpre, hdl]
      refine ⟨?_, ?_, ?_⟩
      · rintro (h | h | h) <;> exact absurd h (by decide)
      · intro _
        obtain ⟨d, hd, he, hwst⟩ := deviceLoop_fail th hw _ 0 e hdl
        exact ⟨d, hd, by rw [he], hwst⟩
      · intro h; exact absurd h (by decide)
    | none =>
      have hwst : (deviceLoop th hw (List.range (deviceCount hw)) 0).worst
          = worstAcross th hw (deviceCount hw) := by
        rw [worstAcross]
        exact (deviceLoop_pass th hw _ 0 hdl).1
      by_cases hc : 1 < deviceCount hw
      · cases hp : (p2pLoop th hw (deviceCount hw) (List.range (deviceCount hw))).1 with
        | some f =>
          simp only [RunPulse, hpre, hdl, if_pos hc, hp]
          refine ⟨fun _ => hwst, ?_, ?_⟩
          · intro h; exact absurd h (by decide)
          · intro h; exact absurd h (by decide)
        | none =>
          cases hck : validateClocks hw.postStats with
          | some m =>
            simp only [RunPulse, hpre, hdl, if_pos hc, hp, hck]
            refine ⟨fun _ => hwst, ?_, ?_⟩
            · intro h; exact absurd h (by decide)
            · intro h; exact absurd h (by decide)
          | none =>
            simp only [RunPulse, hpre, hdl, if_pos hc, hp, hck]
            refine ⟨fun _ => hwst, ?_, ?_⟩
            · intro h; exact absurd h (by decide)
            · intro h; exact absurd h (by decide)
      · cases hck : validateClocks hw.postStats with
        | some m =>
          simp only [RunPulse, hpre, hdl, if_neg hc, hck]
          refine ⟨fun _ => hwst, ?_, ?_⟩
          · intro h; exact absurd h (by decide)
          · intro h; exact absurd h (by decide)
        | none =>
          simp only [RunPulse, hpre, hdl, if_neg hc, hck]
          refine ⟨fun _ => hwst, ?_, ?_⟩
          · intro h; exact absurd h (by decide)
          · intro h; exact absurd h (by decide)

/-- Witness for C3 (amended): on the P2P failure fixture the returned
duration equals the worst mean across both processed devices. -/
theorem C3_amended_witness :
    (RunPulse thStd hwP2PUnavail).worst
      = worstAcross thStd hwP2PUnavail (deviceCount hwP2PUnavail) :=
  (C3_amended thStd hwP2PUnavail).1
    (Or.inl (by rw [RunPulse_unavail_eval]))

/-! ### Claim C6 -/

/-- Claim C6 is false as stated: on `hwP2PAllocFail` the segment (0, 1)
returns native code 2 (allocation failure) with a healthy reported
bandwidth, yet the stage fails InterconnectDegraded — neither "peer
access unavailable" (code 3) nor a bandwidth below the minimum — and only
1 of the 2 ring segments is probed. -/
theorem C6_counterexample :
    (∃ f, (RunPulse thStd hwP2PAllocFail).err = some (.failure f)
        ∧ f.cause = .interconnectDegraded)
    ∧ hwP2PAllocFail.p2pRc 0 1 ≠ 3
    ∧ ¬ (hwP2PAllocFail.p2pBwGBs 0 1 < thStd.minP2PBandwidthGBs)
    ∧ (RunPulse thStd hwP2PAllocFail).p2pSegments = [(0, 1)]
    ∧ (RunPulse thStd hwP2PAllocFail).p2pSegments ≠ ringSegs 2 := by
  rw [RunPulse_allocfail_eval]
  refine ⟨⟨_, rfl, rfl⟩, by decide, by norm_num [hwP2PAllocFail, thStd], rfl, by decide⟩

/-- Claim C6 (amended): with preflight and the device loop passing, the
P2P stage is skipped when the device count is below 2; otherwise the ring
segments (i, (i+1) mod N) are probed in ascending order, stopping at the
first failure (all N probed exactly when every segment passes), and a
probed segment fails — always with InterconnectDegraded — exactly when
the native code returns any nonzero code or the measured bandwidth is
below the minimum. -/
theorem C6_amended (th : Thresholds) (hw : Hardware)
    (hpre : preflight th hw.preStats = none)
    (hdev : (deviceLoop th hw (List.range (deviceCount hw)) 0).err = none) :
    (deviceCount hw < 2 → (RunPulse th hw).p2pSegments = []
        ∧ (RunPulse th hw).stage ≠ .p2pStage)
    ∧ (2 ≤ deviceCount hw →
        ((∀ s ∈ ringSegs (deviceCount hw), segFails th hw s = false) →
          (RunPulse th hw).p2pSegments = ringSegs (deviceCount hw)
          ∧ (RunPulse th hw).stage ≠ .p2pStage)
        ∧ ((∃ s ∈ ringSegs (deviceCount hw), segFails th hw s = true) →
          (RunPulse th hw).stage = .p2pStage
          ∧ ∃ f, (RunPulse th hw).err = some (.failure f)
              ∧ f.cause = .interconnectDegraded))
    ∧ (∀ a b : ℕ, checkP2P th hw a b ≠ none
        ↔ (hw.p2pRc a b ≠ 0 ∨ hw.p2pBwGBs a b < th.minP2PBandwidthGBs)) := by
  refine ⟨?_, ?_, ?_⟩
  · intro hlt
    have hc : ¬ 1 < deviceCount hw := by omega
    cases hck : validateClocks hw.postStats with
    | some m =>
      simp only [RunPulse, hpre, hdev, if_neg hc, hck]
      exact ⟨by trivial, by decide⟩
    | none =>
      simp only [RunPulse, hpre, hdev, if_neg hc, hck]
      exact ⟨by trivial, by decide⟩
  · intro h2
    have hc : 1 < deviceCount hw := by omega
    constructor
    · intro hall
      have hall' : ∀ i ∈ List.range (deviceCount hw),
          checkP2P th hw i ((i + 1) % deviceCount hw) = none := by
        intro i hi
        have hmem : ((i, (i + 1) % deviceCount hw) : ℕ × ℕ)
            ∈ ringSegs (deviceCount hw) := List.mem_map_of_mem _ hi
        exact (segFails_false_iff th hw _).mp (hall _ hmem)
      have hp := p2pLoop_pass th hw (deviceCount hw) (List.range (deviceCount hw)) hall'
      cases hck : validateClocks hw.postStats with
      | some m =>
        simp only [RunPulse, hpre, hdev, if_pos hc, hp, hck]
        exact ⟨by trivial, by decide⟩
      | none =>
        simp only [RunPulse, hpre, hdev, if_pos hc, hp, hck]
        exact ⟨by trivial, by decide⟩
    · rintro ⟨s, hs, hfail⟩
      cases hp : (p2pLoop th hw (deviceCount hw) (List.range (deviceCount hw))).1 with
      | none =>
        exfalso
        obtain ⟨i, hi, rfl⟩ := List.mem_map.mp hs
        have hnone := (p2pLoop_none_iff th hw (deviceCount hw)
          (List.range (deviceCount hw))).mp hp i hi
        have hsf : segFails th hw (i, (i + 1) % deviceCount hw) = false := by
          simp [segFails, hnone]
        simp [hsf] at hfail
      | some f =>
        simp only [RunPulse, hpre, hdev, if_pos hc, hp]
        exact ⟨by trivial, f, by trivial, p2pLoop_fail_cause th hw _ _ f hp⟩
  · intro a b
    constructor
    · intro hne
      by_cases hrc : hw.p2pRc a b = 0
      · by_cases hbw : hw.p2pBwGBs a b < th.minP2PBandwidthGBs
        · exact Or.inr hbw
        · exfalso
          apply hne
          unfold checkP2P
          rw [if_pos hrc, if_neg hbw]
      · exact Or.inl hrc
    · intro h
      rcases h with hrc | hbw
      · unfold checkP2P
        rw [if_neg hrc]
        by_cases h3 : hw.p2pRc a b = 3
        · rw [if_pos h3]; exact Option.some_ne_none _
        · rw [if_neg h3]; exact Option.some_ne_none _
      · unfold checkP2P
        by_cases hrc : hw.p2pRc a b = 0
        · rw [if_pos hrc, if_pos hbw]; exact Option.some_ne_none _
        · rw [if_neg hrc]
          by_cases h3 : hw.p2pRc a b = 3
          · rw [if_pos h3]; exact Option.some_ne_none _
          · rw [if_neg h3]; exact Option.some_ne_none _

/-- Witness for C6 (amended): on `hwP2PUnavail` (segment (0,1) reports
peer access unavailable) the pipeline fails at the P2P stage with an
InterconnectDegraded carrier. -/
theorem C6_amended_witness :
    (RunPulse thStd hwP2PUnavail).stage = .p2pStage
    ∧ ∃ f, (RunPulse thStd hwP2PUnavail).err = some (.failure f)
        ∧ f.cause = .interconnectDegraded := by
  have hdev : (deviceLoop thStd hwP2PUnavail
      (List.range (deviceCount hwP2PUnavail)) 0).err = none := by
    have hrange : List.range (deviceCount hwP2PUnavail) = [0, 1] := rfl
    rw [hrange, deviceLoop_unavail_eval]
  exact ((C6_amended thStd hwP2PUnavail rfl hdev).2.1 (by decide)).2
    ⟨(0, 1), by decide, rfl⟩

/-! ### Claim C10 -/

/-- Claim C10: when native enumeration reports fewer than one device
(including the −1 error value) the count is clamped to 1, the pipeline
behaves exactly as with a true count of 1 (the enumeration error alone
never fails it), and — once preflight passes — the GEMM loop runs exactly
on device 0 with the P2P ring skipped. -/
theorem C10 (th : Thresholds) (hw : Hardware) (h : hw.rawDeviceCount < 1) :
    deviceCount hw = 1
    ∧ RunPulse th hw = RunPulse th { hw with rawDeviceCount := 1 }
    ∧ (preflight th hw.preStats = none →
        (RunPulse th hw).gemmDevices = [0] ∧ (RunPulse th hw).p2pSegments = []) := by
  have hdc : deviceCount hw = 1 := by
    unfold deviceCount
    rw [if_pos h]
  have hdc' : deviceCount { hw with rawDeviceCount := 1 } = 1 := by
    unfold deviceCount
    norm_num
  refine ⟨hdc, ?_, ?_⟩
  · exact RunPulse_congr th hw _ rfl rfl rfl rfl rfl rfl (hdc.trans hdc'.symm)
  · intro hpre
    have hr1 : List.range 1 = [0] := rfl
    have hdevs : ∀ w : ℤ, (deviceLoop th hw [0] w).devs = [0] := by
      intro w
      cases hd0 : (runDevicePulse th hw 0).2.2 with
      | some e => simp [deviceLoop, hd0]
      | none => simp [deviceLoop, hd0]
    cases hde : (deviceLoop th hw [0] 0).err with
    | some e =>
      simp only [RunPulse, hpre, hdc, hr1, hde]
      exact ⟨hdevs 0, by trivial⟩
    | none =>
      have hc : ¬ (1 : ℕ) < 1 := by norm_num
      cases hck : validateClocks hw.postStats with
      | some m =>
        simp only [RunPulse, hpre, hdc, hr1, hde, if_neg hc, hck]
        exact ⟨hdevs 0, by trivial⟩
      | none =>
        simp only [RunPulse, hpre, hdc, hr1, hde, if_neg hc, hck]
        exact ⟨hdevs 0, by trivial⟩

/-- Witness for C10 at the native −1 enumeration error with healthy
hardware. -/
theorem C10_witness :
    deviceCount hwEnumErr = 1
    ∧ (RunPulse thStd hwEnumErr).gemmDevices = [0]
    ∧ (RunPulse thStd hwEnumErr).p2pSegments = [] :=
  ⟨(C10 thStd hwEnumErr (by decide)).1,
   ((C10 thStd hwEnumErr (by decide)).2.2 rfl).1,
   ((C10 thStd hwEnumErr (by decide)).2.2 rfl).2⟩

end StragglerShield
